import Mathlib

/-!
Verification of the session-tracking and ledger-synchronization core of the
Activity-Tracker bot (src/main.py) against its natural-language specification.

The embedding below translates the relevant parts of main.py:
  - the tabular ledger store (a Google-Sheets worksheet) as a list of rows of
    string cells, with the gspread primitives used by the code
    (row_values, update_cell, find, cell, append_row, get_all_records);
  - StatusTracker.update_user_time, including its 3-attempt retry loop, as a
    function parameterised by a fault schedule that says which store operation
    raises a transient error;
  - the in-memory session map, the on_presence_update event handler,
    StatusTracker.update_active_sessions (the periodic flush) and
    StatusTracker.daily_report.

Wall-clock times are modelled as exact rationals (seconds); the float
arithmetic of the source (duration in fractional minutes) becomes exact
rational arithmetic.  Because the kernel cannot evaluate the library
operations on ℚ, the model computes with mkRat-based operations qsub, qdiv60
and qaddInt; the lemmas qsub_eq, qdiv60_eq and qaddInt_eq identify them with
the ordinary field operations.
-/

namespace ActivityTracker

/-- Python int() applied to a rational value: truncation toward zero
(floor for non-negative values, ceiling for negative ones). -/
def pyInt (q : ℚ) : ℤ := if q < 0 then ⌈q⌉ else ⌊q⌋

/-- Kernel-computable subtraction on ℚ (see qsub_eq). -/
def qsub (a b : ℚ) : ℚ := mkRat (a.num * b.den - b.num * a.den) (a.den * b.den)

/-- Kernel-computable division by 60 on ℚ (see qdiv60_eq). -/
def qdiv60 (a : ℚ) : ℚ := mkRat a.num (a.den * 60)

/-- Kernel-computable addition of an integer to a rational (see qaddInt_eq). -/
def qaddInt (a : ℚ) (k : ℤ) : ℚ := mkRat (a.num + k * a.den) a.den

theorem qsub_eq (a b : ℚ) : qsub a b = a - b := by
  unfold qsub
  rw [Rat.mkRat_eq_div]
  have ha : ((a.den : ℚ)) ≠ 0 := by exact_mod_cast a.den_nz
  have hb : ((b.den : ℚ)) ≠ 0 := by exact_mod_cast b.den_nz
  conv_rhs => rw [← Rat.num_div_den a, ← Rat.num_div_den b]
  push_cast
  field_simp
  ring

theorem qdiv60_eq (a : ℚ) : qdiv60 a = a / 60 := by
  unfold qdiv60
  rw [Rat.mkRat_eq_div]
  have ha : ((a.den : ℚ)) ≠ 0 := by exact_mod_cast a.den_nz
  conv_rhs => rw [← Rat.num_div_den a]
  push_cast
  field_simp

theorem qaddInt_eq (a : ℚ) (k : ℤ) : qaddInt a k = a + k := by
  unfold qaddInt
  rw [Rat.mkRat_eq_div]
  have ha : ((a.den : ℚ)) ≠ 0 := by exact_mod_cast a.den_nz
  conv_rhs => rw [← Rat.num_div_den a]
  push_cast
  field_simp

/-- Amount added on the existing-row path of update_user_time:
max(1, int(duration_minutes)) in the source. -/
def existingRowAdd (d : ℚ) : ℤ := max 1 (pyInt d)

/-- Amount written on the new-row path of update_user_time:
int(max(1, duration_minutes)) in the source. -/
def newRowAmount (d : ℚ) : ℤ := pyInt (max 1 d)

/-- The ledger worksheet: a list of rows of string cells.  Row 1 (index 0) is
the header row, rows 2+ are user rows, exactly as in the Tracker sheet. -/
abbrev Sheet := List (List String)

/-- Value of the cell at 1-based (r, c); missing cells read as the empty
string, as gspread reports empty cells. -/
def getCell (s : Sheet) (r c : ℕ) : String := (s.getD (r - 1) []).getD (c - 1) ""

/-- Write v at 1-based position c of a row, padding with empty cells when the
row is shorter, as the sheet grid expands on update_cell. -/
def setRowCell (row : List String) (c : ℕ) (v : String) : List String :=
  (row ++ List.replicate (c - row.length) "").set (c - 1) v

/-- Model of worksheet.update_cell(r, c, v): set the cell at 1-based (r, c),
expanding the grid as needed. -/
def updateCell (s : Sheet) (r c : ℕ) (v : String) : Sheet :=
  let padded := s ++ List.replicate (r - s.length) ([] : List String)
  padded.set (r - 1) (setRowCell (padded.getD (r - 1) []) c v)

/-- Model of worksheet.find(key): the 1-based row of the first cell equal to
key in row-major order, or none (gspread CellNotFound). -/
def findRow (s : Sheet) (key : String) : Option ℕ :=
  (s.findIdx? (fun row => row.contains key)).map (· + 1)

/-- Whitespace test for the trim in the cell-parsing model. -/
def isSpaceChar (c : Char) : Bool := c == ' ' || c == '\t' || c == '\n' || c == '\r'

/-- Trim leading and trailing whitespace from a character list. -/
def trimChars (l : List Char) : List Char :=
  ((l.dropWhile isSpaceChar).reverse.dropWhile isSpaceChar).reverse

/-- Decimal digit value of a character, if it is a digit. -/
def digitVal? (c : Char) : Option ℕ :=
  if 48 ≤ c.toNat ∧ c.toNat ≤ 57 then some (c.toNat - 48) else none

/-- Accumulate a decimal numeral; none if a non-digit occurs. -/
def natDigitsAux : List Char → ℕ → Option ℕ
  | [], acc => some acc
  | c :: cs, acc =>
    match digitVal? c with
    | some d => natDigitsAux cs (acc * 10 + d)
    | none => none

/-- Parse an optionally signed decimal integer from characters. -/
def intOfChars? : List Char → Option ℤ
  | [] => none
  | c :: cs =>
    if c == '-' then
      if cs = [] then none else (natDigitsAux cs 0).map (fun n => -(n : ℤ))
    else (natDigitsAux (c :: cs) 0).map (fun n => (n : ℤ))

/-- Model of Python float() on a ledger cell.  The program only ever writes
decimal-integer strings (str(int(x))), so the model parses exactly those;
any other non-blank content raises, like float() on a malformed string. -/
def pyFloat? (v : String) : Option ℚ :=
  (intOfChars? (trimChars v.data)).map (fun n => ((n : ℤ) : ℚ))

/-- Model of the read in update_user_time:
float(current_value) if current_value and current_value.strip() else 0. -/
def cellNum? (v : String) : Option ℚ :=
  if trimChars v.data = [] then some 0 else pyFloat? v

/-- Outcome of one attempt of the retry loop in update_user_time: the attempt
either raised (transient store fault or parse error) or returned. -/
inductive AttemptOut
  | raised (s : Sheet) (t : ℕ)
  | returned (s : Sheet) (t : ℕ)
deriving DecidableEq

/-- Tail of one attempt of update_user_time, after the column for today has
been located or created (todayCol is 1-based): find or create the user row.
fails is the fault schedule (which store operations raise a transient
error); t counts store operations performed so far. -/
def attemptTail (fails : ℕ → Bool) (userId username : String) (d : ℚ)
    (s : Sheet) (t : ℕ) (todayCol : ℕ) : AttemptOut :=
  -- cell = self.tracker_sheet.find(user_id)
  if fails t then .raised s (t + 1)
  else
    match findRow s userId with
    | some userRow =>
      -- current_value = self.tracker_sheet.cell(user_row, today_col).value
      if fails (t + 1) then .raised s (t + 2)
      else
        match cellNum? (getCell s userRow todayCol) with
        | none => .raised s (t + 2)
        | some currentMinutes =>
          -- new_total = current_minutes + max(1, int(duration_minutes)), then
          -- self.tracker_sheet.update_cell(user_row, today_col, str(int(new_total)))
          if fails (t + 2) then .raised s (t + 3)
          else
            .returned
              (updateCell s userRow todayCol
                (toString (pyInt (qaddInt currentMinutes (existingRowAdd d))))) (t + 3)
    | none =>
      -- row_data = [user_id, username] padded to today_col - 1, then the value
      -- str(int(max(1, duration_minutes))); self.tracker_sheet.append_row(row_data)
      if fails (t + 1) then .raised s (t + 2)
      else
        .returned
          (s ++ [userId :: username ::
            (List.replicate (todayCol - 3) "" ++ [toString (newRowAmount d)])]) (t + 2)

/-- One attempt of the retry loop in update_user_time: read the header row,
find or create the column for today, then run attemptTail. -/
def attemptOnce (fails : ℕ → Bool) (userId username todayHeader : String) (d : ℚ)
    (s : Sheet) (t : ℕ) : AttemptOut :=
  -- headers = self.tracker_sheet.row_values(1), i.e. s.getD 0 []
  if fails t then .raised s (t + 1)
  else
    if todayHeader ∈ s.getD 0 [] then
      attemptTail fails userId username d s (t + 1) ((s.getD 0 []).indexOf todayHeader + 1)
    else
      -- next_col = len(headers) + 1; update_cell(1, next_col, today_header)
      if fails (t + 1) then .raised s (t + 2)
      else
        attemptTail fails userId username d
          (updateCell s 1 ((s.getD 0 []).length + 1) todayHeader) (t + 2)
          ((s.getD 0 []).length + 1)

/-- Retry loop of update_user_time: n attempts remain; returns the final sheet
and whether some attempt returned successfully. -/
def uutLoop (fails : ℕ → Bool) (userId username todayHeader : String) (d : ℚ) :
    ℕ → Sheet → ℕ → Sheet × Bool
  | 0, s, _ => (s, false)
  | n + 1, s, t =>
    match attemptOnce fails userId username todayHeader d s t with
    | .returned s2 _ => (s2, true)
    | .raised s2 t2 => uutLoop fails userId username todayHeader d n s2 t2

/-- Model of StatusTracker.update_user_time(user_id, username, duration_minutes)
with max_retries = 3.  todayHeader stands for the string
Total Minutes on <today>.  The Boolean records whether the call returned from
inside the loop (success) or exhausted all attempts; the Python function
returns None in both cases and reports nothing to its caller. -/
def update_user_time (fails : ℕ → Bool) (userId username todayHeader : String)
    (d : ℚ) (s : Sheet) : Sheet × Bool :=
  uutLoop fails userId username todayHeader d 3 s 0

/-- Discord presence status values, as used by the tracker. -/
inductive Status
  | online
  | idle
  | dnd
  | offline
  | invisible
deriving DecidableEq

/-- Membership test of a status in [discord.Status.offline, discord.Status.invisible],
the condition on both branches of on_presence_update. -/
def statusAbsent : Status → Bool
  | .offline => true
  | .invisible => true
  | _ => false

/-- The in-memory session map active_sessions: user_id to checkpoint time
(seconds).  A Python dict preserves insertion order, so the model is an
association list where updates keep the position of an existing key. -/
abbrev Sessions := List (String × ℚ)

/-- Lookup of a user in the session map. -/
def sGet (m : Sessions) (k : String) : Option ℚ :=
  (m.find? (fun p => p.1 == k)).map (fun p => p.2)

/-- Membership of a user in the session map. -/
def sMem (m : Sessions) (k : String) : Bool := m.any (fun p => p.1 == k)

/-- Dict assignment m[k] = v: overwrite in place if present, else append. -/
def sSet (m : Sessions) (k : String) (v : ℚ) : Sessions :=
  if sMem m k then m.map (fun p => if p.1 == k then (k, v) else p)
  else m ++ [(k, v)]

/-- Dict deletion del m[k]. -/
def sErase (m : Sessions) (k : String) : Sessions :=
  m.filter (fun p => !(p.1 == k))

/-- Process-wide mutable state of the bot: the session map, the ledger sheet,
and the update_in_progress flag of the flush scheduler. -/
structure BotState where
  active_sessions : Sessions
  sheet : Sheet
  update_in_progress : Bool
deriving DecidableEq

/-- Model of the on_presence_update event handler.  todayHeader is the label
Total Minutes on <today>; now is the wall-clock event time in seconds.
First branch: before in [offline, invisible] and after not in it, assign
active_sessions[user_id] = current_time.  Second branch: before not in it and
after in it, flush (current_time - start_time).total_seconds() / 60 minutes
through update_user_time and delete the session.  Otherwise no-op. -/
def on_presence_update (fails : ℕ → Bool) (todayHeader userId username : String)
    (before after : Status) (now : ℚ) (st : BotState) : BotState :=
  if statusAbsent before && !statusAbsent after then
    { st with active_sessions := sSet st.active_sessions userId now }
  else if !statusAbsent before && statusAbsent after then
    match sGet st.active_sessions userId with
    | some startTime =>
      let durationMinutes := qdiv60 (qsub now startTime)
      let result := update_user_time fails userId username todayHeader durationMinutes st.sheet
      { st with
        sheet := result.1,
        active_sessions := sErase st.active_sessions userId }
    | none => st
  else st

/-- Body of the per-user loop of update_active_sessions.  resolve models the
guild member lookup (none when no guild resolves the user, and also the case
where the per-user try/except swallows an error for that user): an
unresolved user is skipped, with no flush and no checkpoint advance.  For a
resolved user: flush (current_time - start_time) / 60 minutes, then advance
the checkpoint with active_sessions[user_id] = current_time. -/
def flushOne (fails : ℕ → Bool) (resolve : String → Option String)
    (todayHeader : String) (now : ℚ) (acc : Sessions × Sheet)
    (entry : String × ℚ) : Sessions × Sheet :=
  match resolve entry.1 with
  | some username =>
    let durationMinutes := qdiv60 (qsub now entry.2)
    let result := update_user_time fails entry.1 username todayHeader durationMinutes acc.2
    (sSet acc.1 entry.1 now, result.1)
  | none => acc

/-- Model of StatusTracker.update_active_sessions.  If update_in_progress is
set, return immediately.  Otherwise set the flag, iterate over a snapshot
list(active_sessions.items()) flushing each resolved user, and finally clear
the flag; in this sequential model the try/finally discipline shows up as the
flag being false in the resulting state. -/
def update_active_sessions (fails : ℕ → Bool) (resolve : String → Option String)
    (todayHeader : String) (now : ℚ) (st : BotState) : BotState :=
  if st.update_in_progress then st
  else
    let r := st.active_sessions.foldl
      (flushOne fails resolve todayHeader now) (st.active_sessions, st.sheet)
    { active_sessions := r.1, sheet := r.2, update_in_progress := false }

/-- Model of StatusTracker.format_time.  Python floor division and modulo on
the float minute count, then integer formatting. -/
def format_time (m : ℚ) : String :=
  let hours : ℤ := ⌊m / 60⌋
  let remainingMinutes : ℚ := m - 60 * (hours : ℚ)
  if hours > 0 then toString hours ++ "h " ++ toString (pyInt remainingMinutes) ++ "m"
  else toString (pyInt remainingMinutes) ++ "m"

/-- Model of worksheet.get_all_records(): each data row becomes a dict keyed
by the header row, short rows padded with empty strings. -/
def get_all_records (s : Sheet) : List (List (String × String)) :=
  match s with
  | [] => []
  | header :: rows =>
    rows.map (fun row => header.zip (row ++ List.replicate (header.length - row.length) ""))

/-- Dict lookup on a record returned by get_all_records. -/
def recGet (r : List (String × String)) (k : String) : Option String :=
  (r.find? (fun p => p.1 == k)).map (fun p => p.2)

/-- Aggregation loop of daily_report over the records: for each record,
record[Date] is read (a missing key raises KeyError); when it equals today,
record[User ID], record[Username] and float(record[Total Minutes]) are read
and the minutes are accumulated per user. -/
def addTotal (acc : List (String × String × ℚ)) (uid uname : String) (m : ℚ) :
    List (String × String × ℚ) :=
  if acc.any (fun e => e.1 == uid) then
    acc.map (fun e => if e.1 == uid then (e.1, e.2.1, e.2.2 + m) else e)
  else acc ++ [(uid, uname, m)]

/-- Record loop of daily_report; an Except error models an uncaught Python
exception (KeyError on a missing column key, ValueError on float()). -/
def dailyAggregate (today : String) :
    List (List (String × String)) → List (String × String × ℚ) →
    Except String (List (String × String × ℚ))
  | [], acc => .ok acc
  | r :: rest, acc =>
    match recGet r "Date" with
    | none => .error "KeyError: Date"
    | some dateVal =>
      if dateVal = today then
        match recGet r "User ID" with
        | none => .error "KeyError: User ID"
        | some uid =>
          match recGet r "Username" with
          | none => .error "KeyError: Username"
          | some uname =>
            match recGet r "Total Minutes" with
            | none => .error "KeyError: Total Minutes"
            | some mv =>
              match pyFloat? mv with
              | none => .error "ValueError: could not convert string to float"
              | some m => dailyAggregate today rest (addTotal acc uid uname m)
      else dailyAggregate today rest acc

/-- Model of the body of StatusTracker.daily_report from the point where the
ledger is read: all_records = get_all_records(); aggregate per user; then
render one report line per aggregated user.  An error value models an
uncaught exception escaping the task body. -/
def daily_report (today : String) (s : Sheet) : Except String String :=
  match dailyAggregate today (get_all_records s) [] with
  | .error e => .error e
  | .ok totals =>
    .ok (totals.foldl
      (fun rep e => rep ++ e.2.1 ++ ": " ++ format_time e.2.2 ++ "\n")
      "📊 **Daily Status Report**\n\n")

/-- Fault schedule under which no store operation raises. -/
def noFail : ℕ → Bool := fun _ => false

/-- The rational one half, given in normalised form so that the kernel can
evaluate with it. -/
def oneHalf : ℚ := ⟨1, 2, by decide, by decide⟩

theorem oneHalf_eq : oneHalf = 1 / 2 := by
  rw [show oneHalf = mkRat 1 2 from rfl, Rat.mkRat_eq_div]
  norm_num

theorem find_over_setMap (k : String) (v : ℚ) :
    ∀ m : Sessions, sMem m k = true →
      (m.map (fun p => if p.1 == k then (k, v) else p)).find? (fun p => p.1 == k) =
        some (k, v)
  | [], h => by simp [sMem] at h
  | p :: m, h => by
    by_cases hp : (p.1 == k) = true
    · simp [List.find?, hp]
    · have hp2 : (p.1 == k) = false := by simpa using hp
      have hm : sMem m k = true := by
        simp only [sMem, List.any_cons, hp2, Bool.false_or] at h
        exact h
      rw [List.map_cons, if_neg (by simp [hp2]), List.find?_cons_of_neg _ (by simp [hp2])]
      exact find_over_setMap k v m hm

theorem find_append_single (k : String) (v : ℚ) :
    ∀ m : Sessions, sMem m k = false →
      (m ++ [(k, v)]).find? (fun p => p.1 == k) = some (k, v)
  | [], _ => by simp [List.find?]
  | p :: m, h => by
    have hp : (p.1 == k) = false := by
      simp only [sMem, List.any_cons, Bool.or_eq_false_iff] at h
      exact h.1
    have hm : sMem m k = false := by
      simp only [sMem, List.any_cons, Bool.or_eq_false_iff] at h
      exact h.2
    simp only [List.cons_append, List.find?, hp]
    exact find_append_single k v m hm

theorem sGet_sSet_self (m : Sessions) (k : String) (v : ℚ) :
    sGet (sSet m k v) k = some v := by
  unfold sGet sSet
  by_cases hm : sMem m k = true
  · rw [if_pos hm, find_over_setMap k v m hm]
    rfl
  · rw [if_neg hm, find_append_single k v m (by simpa using hm)]
    rfl

theorem sMem_sSet_self (m : Sessions) (k : String) (v : ℚ) :
    sMem (sSet m k v) k = true := by
  unfold sSet
  by_cases hm : sMem m k = true
  · rw [if_pos hm]
    rcases List.any_eq_true.1 hm with ⟨p, hp, hpk⟩
    exact List.any_eq_true.2 ⟨(k, v), List.mem_map.2 ⟨p, hp, by simp [hpk]⟩, by simp⟩
  · rw [if_neg hm]
    exact List.any_eq_true.2 ⟨(k, v), by simp, by simp⟩

theorem sMem_sErase_self (m : Sessions) (k : String) :
    sMem (sErase m k) k = false := by
  unfold sMem sErase
  rw [List.any_eq_false]
  intro p hp
  have := List.of_mem_filter hp
  simpa using this

theorem sMem_eq_false_of_sGet_none (m : Sessions) (k : String)
    (h : sGet m k = none) : sMem m k = false := by
  unfold sGet at h
  have hf : m.find? (fun p => p.1 == k) = none := by
    cases hfind : m.find? (fun p => p.1 == k) with
    | none => rfl
    | some p => rw [hfind] at h; simp at h
  unfold sMem
  rw [List.any_eq_false]
  intro p hp
  simpa using List.find?_eq_none.1 hf p hp

theorem pyInt_intCast (n : ℤ) : pyInt (n : ℚ) = n := by
  unfold pyInt
  split
  · exact Int.ceil_intCast n
  · exact Int.floor_intCast n

theorem pyInt_one : pyInt 1 = 1 := by
  simpa using pyInt_intCast 1

theorem pyInt_le_one (d : ℚ) (h : d ≤ 1) : pyInt d ≤ 1 := by
  unfold pyInt
  split
  · exact Int.ceil_le.2 (by exact_mod_cast h)
  · calc ⌊d⌋ ≤ ⌊(1 : ℚ)⌋ := Int.floor_le_floor h
      _ = 1 := Int.floor_one

theorem one_le_pyInt (d : ℚ) (h : 1 ≤ d) : 1 ≤ pyInt d := by
  unfold pyInt
  rw [if_neg (by linarith : ¬ d < 0)]
  exact Int.le_floor.2 (by exact_mod_cast h)

theorem pyInt_eq_floor (d : ℚ) (h : 0 ≤ d) : pyInt d = ⌊d⌋ := by
  unfold pyInt
  exact if_neg (by linarith)

theorem one_le_existingRowAdd (d : ℚ) : 1 ≤ existingRowAdd d := le_max_left 1 _

theorem existingRowAdd_eq_newRowAmount (d : ℚ) : existingRowAdd d = newRowAmount d := by
  unfold existingRowAdd newRowAmount
  rcases le_or_lt 1 d with h | h
  · rw [max_eq_right h, max_eq_right (one_le_pyInt d h)]
  · rw [max_eq_left h.le, pyInt_one, max_eq_left (pyInt_le_one d h.le)]

theorem lt_pyInt_add (v : ℚ) (a : ℤ) (h : 1 ≤ a) : v < (pyInt (v + a) : ℚ) := by
  have ha : (1 : ℚ) ≤ (a : ℚ) := by exact_mod_cast h
  unfold pyInt
  split
  · have hc := Int.le_ceil (v + (a : ℚ))
    calc v < v + 1 := by linarith
      _ ≤ v + (a : ℚ) := by linarith
      _ ≤ _ := hc
  · have hf := Int.sub_one_lt_floor (v + (a : ℚ))
    calc v ≤ v + (a : ℚ) - 1 := by linarith
      _ < _ := hf

theorem set_append_len (l : List String) (x v : String) :
    (l ++ [x]).set l.length v = l ++ [v] := by
  induction l with
  | nil => rfl
  | cons a l ih =>
    simp only [List.cons_append, List.length_cons, List.set, List.append_eq]
    rw [ih]

theorem updateCell_header (h0 : List String) (rest : List (List String)) (hdr : String) :
    updateCell (h0 :: rest) 1 (h0.length + 1) hdr = (h0 ++ [hdr]) :: rest := by
  unfold updateCell setRowCell
  have h1 : 1 - (h0 :: rest).length = 0 := by simp
  rw [h1]
  simp only [List.replicate, List.append_nil]
  have h2 : (h0 :: rest).getD 0 [] = h0 := rfl
  rw [h2]
  have h3 : h0.length + 1 - h0.length = 1 := by omega
  have h4 : h0.length + 1 - 1 = h0.length := by omega
  rw [h3, h4]
  simp only [List.replicate]
  rw [set_append_len]
  rfl

theorem attemptTail_raised (fails : ℕ → Bool) (uid uname : String) (d : ℚ)
    (s : Sheet) (t c : ℕ) (s2 : Sheet) (t2 : ℕ)
    (h : attemptTail fails uid uname d s t c = .raised s2 t2) : s2 = s := by
  unfold attemptTail at h
  split at h
  · cases h; rfl
  · split at h
    · split at h
      · cases h; rfl
      · split at h
        · cases h; rfl
        · split at h
          · cases h; rfl
          · cases h
    · split at h
      · cases h; rfl
      · cases h

theorem attemptOnce_raised_mem (fails : ℕ → Bool) (uid uname hdr : String) (d : ℚ)
    (s : Sheet) (t : ℕ) (s2 : Sheet) (t2 : ℕ)
    (hmem : hdr ∈ s.getD 0 [])
    (h : attemptOnce fails uid uname hdr d s t = .raised s2 t2) : s2 = s := by
  unfold attemptOnce at h
  rw [if_pos hmem] at h
  split at h
  · cases h; rfl
  · exact attemptTail_raised _ _ _ _ _ _ _ _ _ h

theorem attemptOnce_raised_cases (fails : ℕ → Bool) (uid uname hdr : String) (d : ℚ)
    (h0 : List String) (rest : List (List String)) (t : ℕ) (s2 : Sheet) (t2 : ℕ)
    (h : attemptOnce fails uid uname hdr d (h0 :: rest) t = .raised s2 t2) :
    s2 = h0 :: rest ∨ s2 = (h0 ++ [hdr]) :: rest := by
  unfold attemptOnce at h
  by_cases hmem : hdr ∈ (h0 :: rest : Sheet).getD 0 []
  · rw [if_pos hmem] at h
    split at h
    · cases h; exact Or.inl rfl
    · exact Or.inl (attemptTail_raised _ _ _ _ _ _ _ _ _ h)
  · rw [if_neg hmem] at h
    split at h
    · cases h; exact Or.inl rfl
    · split at h
      · cases h; exact Or.inl rfl
      · have hgd : ((h0 :: rest : Sheet).getD 0 []) = h0 := rfl
        rw [hgd, updateCell_header] at h
        exact Or.inr (attemptTail_raised _ _ _ _ _ _ _ _ _ h)

theorem uutLoop_exhausted (fails : ℕ → Bool) (uid uname hdr : String) (d : ℚ)
    (h0 : List String) (rest : List (List String)) :
    ∀ (n : ℕ) (s : Sheet) (t : ℕ) (s2 : Sheet),
      (s = h0 :: rest ∨ s = (h0 ++ [hdr]) :: rest) →
      uutLoop fails uid uname hdr d n s t = (s2, false) →
      s2 = h0 :: rest ∨ s2 = (h0 ++ [hdr]) :: rest := by
  intro n
  induction n with
  | zero =>
    intro s t s2 hs h
    unfold uutLoop at h
    injection h with h1 h2
    exact h1 ▸ hs
  | succ n ih =>
    intro s t s2 hs h
    unfold uutLoop at h
    cases hat : attemptOnce fails uid uname hdr d s t with
    | returned s3 t3 =>
      rw [hat] at h
      simp at h
    | raised s3 t3 =>
      rw [hat] at h
      rcases hs with hs | hs
      · subst hs
        rcases attemptOnce_raised_cases fails uid uname hdr d h0 rest t s3 t3 hat with h3 | h3
        · exact ih s3 t3 s2 (Or.inl h3) h
        · exact ih s3 t3 s2 (Or.inr h3) h
      · subst hs
        have hmem : hdr ∈ ((h0 ++ [hdr]) :: rest : Sheet).getD 0 [] := by simp
        have h3 := attemptOnce_raised_mem fails uid uname hdr d _ t s3 t3 hmem hat
        exact ih s3 t3 s2 (Or.inr h3) h

theorem update_user_time_first_returned (fails : ℕ → Bool) (uid uname hdr : String)
    (d : ℚ) (s s2 : Sheet) (t2 : ℕ)
    (h : attemptOnce fails uid uname hdr d s 0 = .returned s2 t2) :
    update_user_time fails uid uname hdr d s = (s2, true) := by
  unfold update_user_time
  have hstep : uutLoop fails uid uname hdr d 3 s 0 =
      match attemptOnce fails uid uname hdr d s 0 with
      | .returned s3 _ => (s3, true)
      | .raised s3 t3 => uutLoop fails uid uname hdr d 2 s3 t3 := rfl
  rw [hstep, h]

theorem attemptOnce_noFail_existing (uid uname hdr : String) (d : ℚ) (s : Sheet)
    (r c : ℕ) (v : ℚ) (t : ℕ)
    (hmem : hdr ∈ s.getD 0 [])
    (hc : c = (s.getD 0 []).indexOf hdr + 1)
    (hr : findRow s uid = some r)
    (hv : cellNum? (getCell s r c) = some v) :
    attemptOnce noFail uid uname hdr d s t =
      .returned (updateCell s r c (toString (pyInt (qaddInt v (existingRowAdd d))))) (t + 4) := by
  subst hc
  unfold attemptOnce attemptTail
  have hmem2 : hdr ∈ s[0]?.getD [] := by simpa using hmem
  have hv2 : cellNum? (getCell s r (List.indexOf hdr (s[0]?.getD []) + 1)) = some v := by
    simpa using hv
  simp [noFail, hmem2, hr, hv2]

/-- Claim C1: for a session opened at T0 with flush ticks at T0+5min and
T0+10min (each advancing the checkpoint to the tick time) and a
Present-to-Absent close at T0+12min, the ledger records exactly 12 minutes
for that user and day — not 17 or 22.  Times are in seconds: 0, 300, 600,
720.  The statement also records the checkpoint advance at each tick and the
session deletion at close. -/
theorem C1_no_double_counting :
    (let hdr := "Total Minutes on 2024-01-01"
     let st0 : BotState := ⟨[], [["User ID", "Username", hdr]], false⟩
     let st1 := on_presence_update noFail hdr "42" "alice" Status.offline Status.online 0 st0
     let st2 := update_active_sessions noFail (fun _ => some "alice") hdr 300 st1
     let st3 := update_active_sessions noFail (fun _ => some "alice") hdr 600 st2
     let st4 := on_presence_update noFail hdr "42" "alice" Status.online Status.offline 720 st3
     st1.active_sessions = [("42", 0)] ∧
       st2.active_sessions = [("42", 300)] ∧
       st3.active_sessions = [("42", 600)] ∧
       st4.active_sessions = [] ∧
       getCell st4.sheet 2 3 = "12") := by
  decide

/-- Claim C2, counterexample: an Absent-to-Present transition processed while
a Session for the user already exists (checkpoint 0) does NOT leave the
session unchanged — the checkpoint is overwritten with the transition time 77. -/
theorem C2_counterexample_checkpoint_reset :
    (on_presence_update noFail "Total Minutes on 2024-01-01" "42" "alice"
        Status.offline Status.online 77 ⟨[("42", 0)], [], false⟩).active_sessions =
      [("42", 77)] ∧
    (on_presence_update noFail "Total Minutes on 2024-01-01" "42" "alice"
        Status.offline Status.online 77 ⟨[("42", 0)], [], false⟩).active_sessions ≠
      [("42", 0)] := by
  decide

/-- Claim C2 as amended: on an Absent-to-Present transition the handler
unconditionally assigns active_sessions[user_id] = now; when a Session
already exists its checkpoint_time IS reset to the transition time. -/
theorem C2_amended_checkpoint_overwritten (fails : ℕ → Bool) (hdr uid uname : String)
    (b a : Status) (now t0 : ℚ) (st : BotState)
    (hb : statusAbsent b = true) (ha : statusAbsent a = false)
    (hs : sGet st.active_sessions uid = some t0) :
    (on_presence_update fails hdr uid uname b a now st).active_sessions =
      sSet st.active_sessions uid now ∧
    sGet (on_presence_update fails hdr uid uname b a now st).active_sessions uid =
      some now := by
  have hcond : (statusAbsent b && !statusAbsent a) = true := by rw [hb, ha]; rfl
  constructor
  · unfold on_presence_update
    rw [if_pos hcond]
  · unfold on_presence_update
    rw [if_pos hcond]
    exact sGet_sSet_self st.active_sessions uid now

/-- Witness for C2_amended_checkpoint_overwritten at a concrete input. -/
theorem C2_amended_witness :
    statusAbsent Status.offline = true ∧ statusAbsent Status.online = false ∧
    sGet [("42", (0 : ℚ))] "42" = some 0 ∧
    ((on_presence_update noFail "H" "42" "alice" Status.offline Status.online 77
        ⟨[("42", 0)], [], false⟩).active_sessions = sSet [("42", 0)] "42" 77 ∧
      sGet (on_presence_update noFail "H" "42" "alice" Status.offline Status.online 77
        ⟨[("42", 0)], [], false⟩).active_sessions "42" = some 77) :=
  ⟨rfl, rfl, by decide,
    C2_amended_checkpoint_overwritten noFail "H" "42" "alice" Status.offline Status.online
      77 0 ⟨[("42", 0)], [], false⟩ rfl rfl (by decide)⟩

/-- Claim C3, counterexample: a call of update_user_time whose 3 attempts all
fail can leave the ledger changed.  Schedule: store operations 0 and 1
succeed (header read, creation of the day column), every later operation
fails; the call exhausts its retries and the day column persists with no
minute written — the sheet is not byte-for-byte the sheet before the call. -/
theorem C3_counterexample_header_column_persists :
    update_user_time (fun n => decide (2 ≤ n)) "42" "alice"
        "Total Minutes on 2024-01-01" 5 [["User ID", "Username"]] =
      ([["User ID", "Username", "Total Minutes on 2024-01-01"]], false) ∧
    ([["User ID", "Username", "Total Minutes on 2024-01-01"]] : Sheet) ≠
      [["User ID", "Username"]] := by
  decide

/-- Claim C3 as amended: when all 3 attempts fail, no data row is created or
modified — the sheet after the call is either exactly the sheet before, or
the sheet before with the day-column label appended to the header row (a
partially applied header creation from an earlier attempt). -/
theorem C3_amended_retry_exhaustion_effects (fails : ℕ → Bool) (uid uname hdr : String)
    (d : ℚ) (h0 : List String) (rest : List (List String)) (s2 : Sheet)
    (h : update_user_time fails uid uname hdr d (h0 :: rest) = (s2, false)) :
    s2 = h0 :: rest ∨ s2 = (h0 ++ [hdr]) :: rest :=
  uutLoop_exhausted fails uid uname hdr d h0 rest 3 (h0 :: rest) 0 s2 (Or.inl rfl) h

/-- Witness for C3_amended_retry_exhaustion_effects at the counterexample
input. -/
theorem C3_amended_witness :
    update_user_time (fun n => decide (2 ≤ n)) "42" "alice"
        "Total Minutes on 2024-01-01" 5 [["User ID", "Username"]] =
      ((update_user_time (fun n => decide (2 ≤ n)) "42" "alice"
        "Total Minutes on 2024-01-01" 5 [["User ID", "Username"]]).1, false) ∧
    ((update_user_time (fun n => decide (2 ≤ n)) "42" "alice"
        "Total Minutes on 2024-01-01" 5 [["User ID", "Username"]]).1 =
        [["User ID", "Username"]] ∨
      (update_user_time (fun n => decide (2 ≤ n)) "42" "alice"
        "Total Minutes on 2024-01-01" 5 [["User ID", "Username"]]).1 =
        [["User ID", "Username"] ++ ["Total Minutes on 2024-01-01"]]) :=
  ⟨by decide,
    C3_amended_retry_exhaustion_effects (fun n => decide (2 ≤ n)) "42" "alice"
      "Total Minutes on 2024-01-01" 5 ["User ID", "Username"] [] _ (by decide)⟩

/-- Claim C4 (code bug): daily_report reads record[Date] and
record[Total Minutes], keys that the schema written by this very program
(User ID, Username, Total Minutes on <date>) never contains; on any ledger
holding a row produced by update_user_time the report body raises KeyError
instead of reading the day column and adding open-session time. -/
theorem C4_daily_report_raises_keyerror :
    daily_report "2024-01-01"
      (update_user_time noFail "42" "alice" "Total Minutes on 2024-01-01" 5
        [["User ID", "Username", "Total Minutes on 2024-01-01"]]).1 =
      Except.error "KeyError: Date" := rfl

/-- Claim C5: a Session exists after a transition iff the transition is
Absent-to-Present, or it existed before and the transition is not
Present-to-Absent (creation iff Absent-to-Present, destruction iff
Present-to-Absent, at the level of the session map domain); and any
transition within one presence class (Present-to-Present as well as
Absent-to-Absent) leaves the whole state — session map, checkpoints and
ledger — unchanged. -/
theorem C5_session_boundaries (fails : ℕ → Bool) (hdr uid uname : String)
    (b a : Status) (now : ℚ) (st : BotState) :
    sMem (on_presence_update fails hdr uid uname b a now st).active_sessions uid =
      ((statusAbsent b && !statusAbsent a) ||
        (sMem st.active_sessions uid && !(!statusAbsent b && statusAbsent a))) ∧
    (statusAbsent b = statusAbsent a →
      on_presence_update fails hdr uid uname b a now st = st) := by
  constructor
  · cases hb : statusAbsent b <;> cases ha : statusAbsent a
    · simp [on_presence_update, hb, ha]
    · cases hs : sGet st.active_sessions uid with
      | none =>
        have hm := sMem_eq_false_of_sGet_none _ _ hs
        simp [on_presence_update, hb, ha, hs, hm]
      | some t0 =>
        simp [on_presence_update, hb, ha, hs, sMem_sErase_self]
    · simp [on_presence_update, hb, ha, sMem_sSet_self]
    · simp [on_presence_update, hb, ha]
  · intro hba
    cases hb : statusAbsent b
    · have ha : statusAbsent a = false := by rw [← hba, hb]
      simp [on_presence_update, hb, ha]
    · have ha : statusAbsent a = true := by rw [← hba, hb]
      simp [on_presence_update, hb, ha]

/-- Witness for C5_session_boundaries at a concrete Present-to-Present
transition (online to idle). -/
theorem C5_session_boundaries_witness :
    sMem (on_presence_update noFail "H" "42" "alice" Status.online Status.idle 5
        ⟨[("42", 0)], [], false⟩).active_sessions "42" =
      ((statusAbsent Status.online && !statusAbsent Status.idle) ||
        (sMem [("42", 0)] "42" &&
          !(!statusAbsent Status.online && statusAbsent Status.idle))) ∧
    on_presence_update noFail "H" "42" "alice" Status.online Status.idle 5
        ⟨[("42", 0)], [], false⟩ = ⟨[("42", 0)], [], false⟩ :=
  ⟨(C5_session_boundaries noFail "H" "42" "alice" Status.online Status.idle 5
      ⟨[("42", 0)], [], false⟩).1,
    (C5_session_boundaries noFail "H" "42" "alice" Status.online Status.idle 5
      ⟨[("42", 0)], [], false⟩).2 rfl⟩

/-- Claim C6: a close or flush with elapsed duration strictly between 0 and 1
minute contributes exactly 1 minute on both synchronizer paths: the
existing-row amount max(1, int(d)) and the new-row amount int(max(1, d)). -/
theorem C6_minimum_one_minute (d : ℚ) (h1 : 0 < d) (h2 : d < 1) :
    existingRowAdd d = 1 ∧ newRowAmount d = 1 := by
  constructor
  · unfold existingRowAdd
    rw [pyInt_eq_floor d h1.le, Int.floor_eq_zero_iff.2 ⟨h1.le, h2⟩]
    decide
  · unfold newRowAmount
    rw [max_eq_left h2.le, pyInt_one]

/-- Witness for C6_minimum_one_minute at d = 1/2. -/
theorem C6_minimum_one_minute_witness :
    (0 : ℚ) < oneHalf ∧ oneHalf < 1 ∧
      (existingRowAdd oneHalf = 1 ∧ newRowAmount oneHalf = 1) :=
  ⟨by decide, by decide, C6_minimum_one_minute oneHalf (by decide) (by decide)⟩

/-- Claim C7, counterexample: closing a session of 162 seconds (2.7 minutes)
stores 2 minutes — int() truncation — while max(1, round(2.7)) as claimed
(round-to-nearest) is 3. -/
theorem C7_counterexample_truncation_not_rounding :
    getCell (on_presence_update noFail "Total Minutes on 2024-01-01" "42" "alice"
        Status.online Status.offline 162
        ⟨[("42", 0)], [["User ID", "Username", "Total Minutes on 2024-01-01"]],
          false⟩).sheet 2 3 = "2" ∧
    max 1 (round ((162 - (0 : ℚ)) / 60)) = 3 ∧
    ("2" : String) ≠ toString (max 1 (round ((162 - (0 : ℚ)) / 60))) := by
  have hround : round ((162 - (0 : ℚ)) / 60) = 3 := by
    rw [round_eq, show ((162 - (0 : ℚ)) / 60 + 1 / 2 : ℚ) = 16 / 5 by norm_num,
      Int.floor_eq_iff]
    norm_num
  refine ⟨by decide, ?_, ?_⟩
  · rw [hround]
    decide
  · rw [hround]
    decide

/-- Claim C7 as amended: on a Present-to-Absent transition with an existing
Session the handler computes duration = (now - checkpoint)/60 fractional
minutes, invokes the synchronizer with it for the current day header, and
deletes the Session; the amount the synchronizer adds is max(1, int(duration))
where int truncates (floor on non-negative durations), not round-to-nearest. -/
theorem C7_amended_close_truncates (fails : ℕ → Bool) (hdr uid uname : String)
    (b a : Status) (now t0 : ℚ) (st : BotState)
    (hb : statusAbsent b = false) (ha : statusAbsent a = true)
    (hs : sGet st.active_sessions uid = some t0) :
    (on_presence_update fails hdr uid uname b a now st).active_sessions =
      sErase st.active_sessions uid ∧
    (on_presence_update fails hdr uid uname b a now st).sheet =
      (update_user_time fails uid uname hdr ((now - t0) / 60) st.sheet).1 ∧
    (∀ q : ℚ, 0 ≤ q → existingRowAdd q = max 1 ⌊q⌋) := by
  have hc1 : (statusAbsent b && !statusAbsent a) = false := by rw [hb]; rfl
  have hc2 : (!statusAbsent b && statusAbsent a) = true := by rw [hb, ha]; rfl
  have hrw : on_presence_update fails hdr uid uname b a now st =
      { st with
        sheet := (update_user_time fails uid uname hdr (qdiv60 (qsub now t0)) st.sheet).1,
        active_sessions := sErase st.active_sessions uid } := by
    unfold on_presence_update
    rw [if_neg (by simp [hc1]), if_pos hc2, hs]
  refine ⟨by rw [hrw], ?_, fun q hq => ?_⟩
  · rw [hrw]
    show (update_user_time fails uid uname hdr (qdiv60 (qsub now t0)) st.sheet).1 = _
    rw [qsub_eq, qdiv60_eq]
  · unfold existingRowAdd
    rw [pyInt_eq_floor q hq]

/-- Witness for C7_amended_close_truncates at a concrete close. -/
theorem C7_amended_witness :
    statusAbsent Status.online = false ∧ statusAbsent Status.offline = true ∧
    sGet [("42", (5 : ℚ))] "42" = some 5 ∧
    ((on_presence_update noFail "H" "42" "alice" Status.online Status.offline 65
        ⟨[("42", 5)], [["User ID", "Username", "H"]], false⟩).active_sessions =
      sErase [("42", 5)] "42" ∧
    (on_presence_update noFail "H" "42" "alice" Status.online Status.offline 65
        ⟨[("42", 5)], [["User ID", "Username", "H"]], false⟩).sheet =
      (update_user_time noFail "42" "alice" "H" ((65 - 5) / 60)
        [["User ID", "Username", "H"]]).1 ∧
    (∀ q : ℚ, 0 ≤ q → existingRowAdd q = max 1 ⌊q⌋)) :=
  ⟨rfl, rfl, by decide,
    C7_amended_close_truncates noFail "H" "42" "alice" Status.online Status.offline
      65 5 ⟨[("42", 5)], [["User ID", "Username", "H"]], false⟩ rfl rfl (by decide)⟩

/-- Claim C8: on the existing-row path of a successful (fault-free) call, the
synchronizer reads the current cell value v and writes back
v + max(1, int(d)), which is at least v, for a non-negative delta d; for a
fixed user and day the stored value never decreases across such calls. -/
theorem C8_upsert_monotonic (uid uname hdr : String) (d : ℚ) (s : Sheet)
    (r c : ℕ) (v : ℚ)
    (hd : 0 ≤ d)
    (hmem : hdr ∈ s.getD 0 [])
    (hc : c = (s.getD 0 []).indexOf hdr + 1)
    (hr : findRow s uid = some r)
    (hv : cellNum? (getCell s r c) = some v) :
    update_user_time noFail uid uname hdr d s =
      (updateCell s r c (toString (pyInt (qaddInt v (existingRowAdd d)))), true) ∧
    v ≤ (pyInt (qaddInt v (existingRowAdd d)) : ℚ) := by
  constructor
  · exact update_user_time_first_returned noFail uid uname hdr d s _ _
      (attemptOnce_noFail_existing uid uname hdr d s r c v 0 hmem hc hr hv)
  · rw [qaddInt_eq]
    exact le_of_lt (lt_pyInt_add v _ (one_le_existingRowAdd d))

/-- Witness for C8_upsert_monotonic at a concrete ledger. -/
theorem C8_upsert_monotonic_witness :
    (0 : ℚ) ≤ 2 ∧
    "H" ∈ (["User ID", "Username", "H"] : List String) ∧
    3 = (["User ID", "Username", "H"] : List String).indexOf "H" + 1 ∧
    findRow [["User ID", "Username", "H"], ["42", "alice", "5"]] "42" = some 2 ∧
    cellNum? (getCell [["User ID", "Username", "H"], ["42", "alice", "5"]] 2 3) = some 5 ∧
    (update_user_time noFail "42" "alice" "H" 2
        [["User ID", "Username", "H"], ["42", "alice", "5"]] =
      (updateCell [["User ID", "Username", "H"], ["42", "alice", "5"]] 2 3
        (toString (pyInt (qaddInt 5 (existingRowAdd 2)))), true) ∧
      (5 : ℚ) ≤ (pyInt (qaddInt 5 (existingRowAdd 2)) : ℚ)) :=
  ⟨by decide, by decide, by decide, by decide, by decide,
    C8_upsert_monotonic "42" "alice" "H" 2
      [["User ID", "Username", "H"], ["42", "alice", "5"]] 2 3 5
      (by decide) (by decide) (by decide) (by decide) (by decide)⟩

/-- Claim C9: for every duration d (including non-positive), the existing-row
amount max(1, int(d)) equals the new-row amount int(max(1, d)); both are at
least 1, so a successful synchronizer call strictly increases the stored
value read as v — even when d is zero or negative. -/
theorem C9_paths_agree_min_one (d : ℚ) :
    existingRowAdd d = newRowAmount d ∧ 1 ≤ existingRowAdd d ∧
      ∀ v : ℚ, v < (pyInt (qaddInt v (existingRowAdd d)) : ℚ) := by
  refine ⟨existingRowAdd_eq_newRowAmount d, one_le_existingRowAdd d, fun v => ?_⟩
  rw [qaddInt_eq]
  exact lt_pyInt_add v _ (one_le_existingRowAdd d)

/-- Claim C10: if update_in_progress is set, update_active_sessions returns
the state unchanged (no session read or write, no synchronizer call); and an
invocation that enters the body (flag clear) always leaves the flag clear
again, for every fault schedule and every resolver outcome — the try/finally
discipline. -/
theorem C10_flush_guard_flag (fails : ℕ → Bool) (resolve : String → Option String)
    (hdr : String) (now : ℚ) (st : BotState) :
    (st.update_in_progress = true →
      update_active_sessions fails resolve hdr now st = st) ∧
    (st.update_in_progress = false →
      (update_active_sessions fails resolve hdr now st).update_in_progress = false) := by
  constructor
  · intro h
    unfold update_active_sessions
    rw [if_pos h]
  · intro h
    unfold update_active_sessions
    rw [if_neg (by simp [h])]

/-- Witness for C10_flush_guard_flag: a guarded call returns the state
unchanged; an unguarded call ends with the flag clear. -/
theorem C10_flush_guard_flag_witness :
    ((⟨[("42", 0)], [], true⟩ : BotState).update_in_progress = true ∧
      update_active_sessions noFail (fun _ => none) "H" 9 ⟨[("42", 0)], [], true⟩ =
        ⟨[("42", 0)], [], true⟩) ∧
    ((⟨[("42", 0)], [], false⟩ : BotState).update_in_progress = false ∧
      (update_active_sessions noFail (fun _ => none) "H" 9
        ⟨[("42", 0)], [], false⟩).update_in_progress = false) :=
  ⟨⟨rfl, (C10_flush_guard_flag noFail (fun _ => none) "H" 9 ⟨[("42", 0)], [], true⟩).1 rfl⟩,
    ⟨rfl, (C10_flush_guard_flag noFail (fun _ => none) "H" 9 ⟨[("42", 0)], [], false⟩).2 rfl⟩⟩

end ActivityTracker
